import Mathlib

/-!
Verification of the multi-user todo-list backend (FastAPI service under
`backend/app`): the token lifecycle (`core/security.py`), the auth workflow
(`services/auth_service.py`, `api/routes/auth.py`), and the ownership-scoped
task CRUD (`services/task_service.py`, `api/routes/tasks.py`,
`schemas/task.py`).

The embedding is shallow: the database session is a list of rows passed
explicitly, the clock is an explicit `Nat` parameter (`datetime.utcnow()`
becomes the current value of that parameter), and fallible Python code that
raises typed exceptions becomes `Except`-valued Lean functions whose error
payload carries the exception's message (and the HTTP status the route maps
it to, where the route is modelled).
-/

namespace TodoApp

/-! ## Python string primitives

`str.strip()`, `str.lower()` and truthiness, modelled over the character
list of the Lean `String`. -/

/-- The character class removed by Python `str.strip()` (whitespace). -/
def pySpace (c : Char) : Bool := c.isWhitespace

/-- Remove leading and trailing whitespace from a character list. -/
def stripChars (l : List Char) : List Char :=
  ((l.dropWhile pySpace).reverse.dropWhile pySpace).reverse

/-- Python `s.strip()`. -/
def pyStrip (s : String) : String := String.mk (stripChars s.data)

/-- Python `s.lower()`. -/
def pyLower (s : String) : String := String.mk (s.data.map Char.toLower)

/-- Python `description.strip() if description else None` on an
`Optional[str]` value: `None` and the empty string are falsy. -/
def pyOptStrip : Option String → Option String
  | none => none
  | some s => if s = "" then none else some (pyStrip s)

/-! ## Configuration (`app/config.py`)

Process-wide immutable settings, established once at startup. -/

/-- The settings fields the token service reads (`config.py`). Expiry
durations keep the source's units (minutes for access, days for refresh);
the clock in this development counts seconds. -/
structure Settings where
  BETTER_AUTH_SECRET : String
  ACCESS_TOKEN_EXPIRE_MINUTES : Nat := 15
  REFRESH_TOKEN_EXPIRE_DAYS : Nat := 7
deriving DecidableEq, Repr

/-! ## Token service (`app/core/security.py`)

A JWT is modelled as either a malformed blob or a well-formed pair of a
claim set and a signature value. The claim sets the application builds
carry exactly a `user_id` claim (every call site passes
`data={"user_id": ...}`) and the `exp` claim added by
`create_access_token`/`create_refresh_token`; `user_id` is `Option`-valued
because `verify_token` must also handle tokens missing it. -/

/-- The decoded claim set of a token: `user_id` and `exp` (seconds). -/
structure TokenPayload where
  user_id : Option Nat
  exp : Nat
deriving DecidableEq, Repr

/-- A presented token string: either structurally malformed, or a claim set
together with a signature value. -/
inductive TokenInput where
  | malformed (raw : String)
  | signed (payload : TokenPayload) (sig : Nat)
deriving DecidableEq, Repr

/-- Model of the HMAC-SHA256 signature over the serialized claims under the
shared secret: a concrete function of the secret and the claim set, so that
signing with the same secret verifies and a mismatching value is rejected. -/
def hmacSign (secret : String) (p : TokenPayload) : Nat :=
  (secret.data.foldl (fun acc c => acc * 131 + c.toNat) 7) * 2 +
    (2 * p.exp + 3) * (match p.user_id with | none => 5 | some u => 7 * (u + 1))

/-- `create_access_token(data={"user_id": uid}, expires_delta)` from
`security.py`: copies the claims, sets `exp` to now plus the delta
(`ACCESS_TOKEN_EXPIRE_MINUTES` when no delta is given) and signs with
`BETTER_AUTH_SECRET`. `expires_delta` is in seconds. -/
def create_access_token (s : Settings) (expires_delta : Option Nat)
    (now uid : Nat) : TokenInput :=
  let exp := now + (match expires_delta with
    | some d => d
    | none => s.ACCESS_TOKEN_EXPIRE_MINUTES * 60)
  let p : TokenPayload := { user_id := some uid, exp := exp }
  .signed p (hmacSign s.BETTER_AUTH_SECRET p)

/-- `create_refresh_token(data={"user_id": uid})` from `security.py`:
`exp` is now plus `REFRESH_TOKEN_EXPIRE_DAYS`, signed with the same
secret. -/
def create_refresh_token (s : Settings) (now uid : Nat) : TokenInput :=
  let p : TokenPayload :=
    { user_id := some uid, exp := now + s.REFRESH_TOKEN_EXPIRE_DAYS * 86400 }
  .signed p (hmacSign s.BETTER_AUTH_SECRET p)

/-- `verify_token` from `security.py`: `jwt.decode` under the shared secret,
returning the payload, with every `JWTError` caught and turned into `None`.
The decode internals (structure parse, signature comparison, expiry
comparison) live inside the `python-jose` library, not in this repository;
they are modelled from the spec (§4.2): signature must equal the one
computed under the configured secret, and the token is accepted only while
`now < exp`. A total function: no token input raises. -/
def verify_token (s : Settings) (now : Nat) : TokenInput → Option TokenPayload
  | .malformed _ => none
  | .signed p sig =>
    if sig = hmacSign s.BETTER_AUTH_SECRET p ∧ now < p.exp then some p else none

/-- The subject a presented token verifies to: the `user_id` claim of the
verified payload, absent when verification fails or the claim is missing.
This is the composition the callers of `verify_token` perform
(`deps.get_current_user`, the refresh route). -/
def verify_subject (s : Settings) (now : Nat) (tok : TokenInput) : Option Nat :=
  match verify_token s now tok with
  | none => none
  | some p => p.user_id

/-- `get_current_user` from `api/deps.py`: verify the bearer token, then
extract `user_id`; each failure is a 401 with the source's message. -/
def get_current_user (s : Settings) (now : Nat) (tok : TokenInput) :
    Except (Nat × String) Nat :=
  match verify_token s now tok with
  | none => .error (401, "Invalid or expired token")
  | some p =>
    match p.user_id with
    | none => .error (401, "Invalid token payload")
    | some uid => .ok uid

/-- The `POST /api/auth/refresh` route (`api/routes/auth.py`): verify the
presented refresh token; on success issue a new access token bound to the
same `user_id`; each failure is a 401. The route touches no store — the
presented refresh token is not rotated or recorded anywhere. -/
def refresh (s : Settings) (now : Nat) (refresh_token : TokenInput) :
    Except (Nat × String) TokenInput :=
  match verify_token s now refresh_token with
  | none => .error (401, "Invalid or expired refresh token")
  | some p =>
    match p.user_id with
    | none => .error (401, "Invalid token payload")
    | some uid => .ok (create_access_token s none now uid)

/-! ## Password hasher (`app/core/security.py`, §4.1) -/

/-- Modelled from the spec: the bcrypt transform behind
`pwd_context.hash`/`pwd_context.verify` lives in the `passlib` library, not
in this repository. Per §4.1 the hash output self-describes algorithm, cost
and salt, and verification recomputes the one-way digest from the stored
salt. The digest of the one-way function is modelled as the (salt,
password) pair itself — an abstract stand-in for the bcrypt digest; no
claim here concerns preimage resistance. -/
structure PasswordHash where
  algorithm : String
  cost : Nat
  salt : Nat
  digest : Nat × String
deriving DecidableEq, Repr

/-- Modelled from the spec: abstract bcrypt one-way digest of a salt and a
password (stand-in for the passlib internals missing from the source). -/
def bcryptDigest (salt : Nat) (password : String) : Nat × String :=
  (salt, password)

/-- `hash_password` from `security.py`: bcrypt with cost factor 12 under a
fresh salt (the salt is an explicit parameter here since the model is
deterministic). -/
def hash_password (salt : Nat) (password : String) : PasswordHash :=
  { algorithm := "bcrypt", cost := 12, salt := salt,
    digest := bcryptDigest salt password }

/-- `verify_password` from `security.py`: recompute the digest from the
self-described salt and compare; fails closed (returns `false`) on a hash
that does not describe the bcrypt algorithm. -/
def verify_password (plain : String) (h : PasswordHash) : Bool :=
  h.algorithm == "bcrypt" && h.digest == bcryptDigest h.salt plain

/-! ## Users (`app/models/user.py`, `app/services/auth_service.py`) -/

/-- A row of the `users` table (`models/user.py`). -/
structure User where
  id : Nat
  email : String
  password_hash : PasswordHash
  name : String
  created_at : Nat
  updated_at : Nat
deriving DecidableEq, Repr

/-- `create_user` from `auth_service.py`: check-then-insert under the
lowercased email, with the storage layer's unique constraint on `email`
modelled inside the insert — an `IntegrityError` from it is rolled back and
translated to the same `ConflictError("Email already registered")` as the
pre-insert check. `next_id` is the id the store assigns; `salt` the fresh
bcrypt salt; `now` the clock for the row timestamps. -/
def create_user (db : List User) (next_id salt now : Nat)
    (email password name : String) : Except String (List User × User) :=
  match db.find? (fun u => u.email == pyLower email) with
  | some _ => .error "Email already registered"
  | none =>
    let user : User :=
      { id := next_id, email := pyLower email,
        password_hash := hash_password salt password,
        name := pyStrip name, created_at := now, updated_at := now }
    -- unique constraint on users.email at the storage layer
    if db.any (fun v => v.email == user.email) then
      .error "Email already registered"
    else
      .ok (db ++ [user], user)

/-- `authenticate_user` from `auth_service.py`: look up by lowercased
email; a missing user and a failing password verification raise
`AuthenticationError` with the one generic message. -/
def authenticate_user (db : List User) (email password : String) :
    Except String User :=
  match db.find? (fun u => u.email == pyLower email) with
  | none => .error "Invalid email or password"
  | some user =>
    if verify_password password user.password_hash then .ok user
    else .error "Invalid email or password"

/-- The body the auth routes return on success: the user plus both
tokens (`AuthResponse` in `schemas/auth.py`). -/
structure AuthSuccess where
  user : User
  access_token : TokenInput
  refresh_token : TokenInput
deriving DecidableEq, Repr

/-- The `POST /api/auth/signup` route (`api/routes/auth.py`): `create_user`,
then issue both tokens bound to the new user's id; `ConflictError` maps to
409. -/
def signup (s : Settings) (db : List User) (next_id salt now : Nat)
    (email password name : String) :
    Except (Nat × String) (List User × AuthSuccess) :=
  match create_user db next_id salt now email password name with
  | .error msg => .error (409, msg)
  | .ok (db2, user) =>
    .ok (db2,
      { user := user,
        access_token := create_access_token s none now user.id,
        refresh_token := create_refresh_token s now user.id })

/-! ## Tasks (`app/models/task.py`, `app/services/task_service.py`,
`app/schemas/task.py`, `app/api/routes/tasks.py`) -/

/-- A row of the `tasks` table (`models/task.py`). `id` is the primary key;
`user_id` the owning user. -/
structure Task where
  id : Nat
  title : String
  description : Option String
  completed : Bool
  user_id : Nat
  created_at : Nat
  updated_at : Nat
deriving DecidableEq, Repr

/-- `get_task_by_id` from `task_service.py`: one `select` whose `where`
conjoins `Task.id == task_id` and `Task.user_id == user_id`, taking the
first row; `None` when no row matches. -/
def get_task_by_id (db : List Task) (task_id user_id : Nat) : Option Task :=
  db.find? (fun t => t.id == task_id && t.user_id == user_id)

/-- The `GET /api/tasks/{task_id}` route (`api/routes/tasks.py`):
`get_task_by_id`, with an absent result mapped to a 404 with detail
"Task not found". -/
def get_task (db : List Task) (task_id user_id : Nat) :
    Except (Nat × String) Task :=
  match get_task_by_id db task_id user_id with
  | none => .error (404, "Task not found")
  | some t => .ok t

/-- `create_task` from `task_service.py`: a new row with stripped title,
`description.strip() if description else None`, `completed=False`, the
caller's `user_id`, and both timestamps set to now. `next_id` is the
primary key the store assigns. -/
def create_task (db : List Task) (next_id : Nat) (title : String)
    (description : Option String) (user_id now : Nat) : List Task × Task :=
  let task : Task :=
    { id := next_id, title := pyStrip title,
      description := pyOptStrip description, completed := false,
      user_id := user_id, created_at := now, updated_at := now }
  (db ++ [task], task)

/-- The `title` validation of `CreateTaskRequest`/`UpdateTaskRequest`
(`schemas/task.py`): the field bounds `min_length=1`, `max_length=200`,
then the validator rejecting a title blank after strip; the validated
value is the stripped title. -/
def validate_title (v : String) : Except String String :=
  if v.length < 1 then .error "ensure this value has at least 1 characters"
  else if 200 < v.length then
    .error "ensure this value has at most 200 characters"
  else if pyStrip v = "" then .error "Title cannot be empty"
  else .ok (pyStrip v)

/-- The `description` validation of `CreateTaskRequest`/`UpdateTaskRequest`
(`schemas/task.py`): `max_length=2000`; a present value is stripped, and a
value blank after strip becomes `None`. -/
def validate_description : Option String → Except String (Option String)
  | none => .ok none
  | some v =>
    if 2000 < v.length then
      .error "ensure this value has at most 2000 characters"
    else if pyStrip v = "" then .ok none
    else .ok (some (pyStrip v))

/-- The `POST /api/tasks` route (`api/routes/tasks.py`): the request body
is validated by `CreateTaskRequest`, then `create_task` runs with the
authenticated caller's `user_id`. -/
def create_new_task (db : List Task) (next_id : Nat) (title : String)
    (description : Option String) (user_id now : Nat) :
    Except String (List Task × Task) :=
  match validate_title title with
  | .error e => .error e
  | .ok t =>
    match validate_description description with
    | .error e => .error e
    | .ok d => .ok (create_task db next_id t d user_id now)

/-- `update_task` from `task_service.py`: fetch through the ownership
filter; on no match raise `NotFoundError("Task not found")`; on match
overwrite title (stripped) and description
(`description.strip() if description else None`), set `updated_at` to now,
and commit the mutated row (identified by its primary key) back to the
store. -/
def update_task (db : List Task) (task_id user_id : Nat) (title : String)
    (description : Option String) (now : Nat) :
    Except String (List Task × Task) :=
  match get_task_by_id db task_id user_id with
  | none => .error "Task not found"
  | some task =>
    let task2 : Task :=
      { task with title := pyStrip title,
                  description := pyOptStrip description, updated_at := now }
    .ok (db.map (fun r => if r.id = task.id then task2 else r), task2)

/-- `toggle_task_completion` from `task_service.py`: fetch through the
ownership filter; on no match raise `NotFoundError("Task not found")`; on
match flip `completed`, set `updated_at` to now, and commit the mutated row
(identified by its primary key) back to the store. -/
def toggle_task_completion (db : List Task) (task_id user_id now : Nat) :
    Except String (List Task × Task) :=
  match get_task_by_id db task_id user_id with
  | none => .error "Task not found"
  | some task =>
    let task2 : Task := { task with completed := !task.completed,
                                    updated_at := now }
    .ok (db.map (fun r => if r.id = task.id then task2 else r), task2)

/-- `delete_task` from `task_service.py`: fetch through the ownership
filter; on no match raise `NotFoundError("Task not found")`; on match
delete the row (identified by its primary key) and commit. -/
def delete_task (db : List Task) (task_id user_id : Nat) :
    Except String (List Task) :=
  match get_task_by_id db task_id user_id with
  | none => .error "Task not found"
  | some task => .ok (db.filter (fun r => r.id != task.id))

/-! ## Lemmas: `strip` is idempotent -/

theorem dropWhile_dropWhile (p : α → Bool) (l : List α) :
    (l.dropWhile p).dropWhile p = l.dropWhile p := by
  induction l with
  | nil => rfl
  | cons a l ih =>
    by_cases h : p a
    · simp [List.dropWhile_cons, h, ih]
    · simp [List.dropWhile_cons, h]

theorem length_dropWhile_le (p : α → Bool) (l : List α) :
    (l.dropWhile p).length ≤ l.length := by
  induction l with
  | nil => simp
  | cons a l ih =>
    by_cases h : p a
    · simp only [List.dropWhile_cons, h, if_true, List.length_cons]
      omega
    · simp [List.dropWhile_cons, h]

/-- Splitting `dropWhile` over an appended final element that the predicate
rejects. -/
theorem dropWhile_append_last (p : α → Bool) (a : α) (ha : p a = false)
    (xs : List α) :
    (List.dropWhile p xs = [] ∧ List.dropWhile p (xs ++ [a]) = [a]) ∨
    (List.dropWhile p (xs ++ [a]) = List.dropWhile p xs ++ [a]) := by
  induction xs with
  | nil => exact Or.inl ⟨rfl, by simp [List.dropWhile, ha]⟩
  | cons x xs ih =>
    by_cases hx : p x
    · rcases ih with ⟨h1, h2⟩ | h
      · exact Or.inl ⟨by simp [List.dropWhile_cons, hx, h1],
          by simp [List.dropWhile_cons, hx, h2]⟩
      · exact Or.inr (by simp [List.dropWhile_cons, hx, h])
    · exact Or.inr (by simp [List.dropWhile_cons, hx])

/-- A list already left-trimmed stays left-trimmed after right-trimming. -/
theorem dropWhile_reverse_dropWhile (p : α → Bool) (r : List α)
    (hr : List.dropWhile p r = r) :
    List.dropWhile p ((r.reverse.dropWhile p).reverse) =
      (r.reverse.dropWhile p).reverse := by
  cases r with
  | nil => simp
  | cons a t =>
    have ha : p a = false := by
      by_contra hpa
      have hpa' : p a = true := by
        cases h : p a
        · exact absurd h hpa
        · rfl
      have hlen := length_dropWhile_le p t
      have : List.dropWhile p (a :: t) = List.dropWhile p t := by
        simp [List.dropWhile_cons, hpa']
      rw [hr] at this
      have : (a :: t).length ≤ t.length := this ▸ length_dropWhile_le p t
      simp at this
    have hrev : (a :: t).reverse = t.reverse ++ [a] := by simp
    rw [hrev]
    rcases dropWhile_append_last p a ha t.reverse with ⟨_, h2⟩ | h
    · rw [h2]; simp [List.dropWhile_cons, ha]
    · rw [h]
      have : (List.dropWhile p t.reverse ++ [a]).reverse =
          a :: (List.dropWhile p t.reverse).reverse := by simp
      rw [this]
      simp [List.dropWhile_cons, ha]

theorem stripChars_idem (l : List Char) :
    stripChars (stripChars l) = stripChars l := by
  unfold stripChars
  set r := l.dropWhile pySpace with hr
  have h1 : List.dropWhile pySpace r = r := dropWhile_dropWhile pySpace l
  have h2 : List.dropWhile pySpace ((r.reverse.dropWhile pySpace).reverse) =
      (r.reverse.dropWhile pySpace).reverse :=
    dropWhile_reverse_dropWhile pySpace r h1
  rw [h2, List.reverse_reverse, dropWhile_dropWhile]

theorem pyStrip_idem (s : String) : pyStrip (pyStrip s) = pyStrip s := by
  unfold pyStrip
  exact congrArg String.mk (stripChars_idem s.data)

/-! ## Lemmas about the ownership-filtered lookup -/

/-- A successful ownership-filtered lookup returns a row with the requested
id, owned by the caller, present in the store. -/
theorem get_task_by_id_spec {db : List Task} {t uid : Nat} {task : Task}
    (h : get_task_by_id db t uid = some task) :
    task.id = t ∧ task.user_id = uid ∧ task ∈ db := by
  have hp := List.find?_some h
  have hm := List.mem_of_find?_eq_some h
  simp only [Bool.and_eq_true, beq_iff_eq] at hp
  exact ⟨hp.1, hp.2, hm⟩

/-- Committing a mutated row back under its primary key: when ids are
unique in the store, a lookup that found `task` finds the replacement
row afterwards, provided the replacement keeps the id and the owner. -/
theorem get_task_by_id_replace {db : List Task} {t uid : Nat} {task nt : Task}
    (hnodup : (db.map Task.id).Nodup)
    (hfind : get_task_by_id db t uid = some task)
    (hid : nt.id = task.id) (huid : nt.user_id = task.user_id) :
    get_task_by_id (db.map (fun r => if r.id = task.id then nt else r)) t uid
      = some nt := by
  obtain ⟨hti, htu, -⟩ := get_task_by_id_spec hfind
  unfold get_task_by_id at hfind ⊢
  induction db with
  | nil => simp at hfind
  | cons a rest ih =>
    simp only [List.map_cons, List.nodup_cons, List.mem_map] at hnodup
    simp only [List.find?_cons] at hfind
    cases hqa : (a.id == t && a.user_id == uid) with
    | true =>
      simp only [hqa] at hfind
      have ha : a = task := Option.some.inj hfind
      subst ha
      simp only [List.map_cons, if_pos rfl]
      simp [List.find?_cons, hid, hti, huid, htu]
    | false =>
      simp only [hqa] at hfind
      have hmem : task ∈ rest := List.mem_of_find?_eq_some hfind
      have hne : a.id ≠ task.id := fun he => hnodup.1 ⟨task, hmem, he.symm⟩
      simp only [List.map_cons, if_neg hne]
      simp only [List.find?_cons, hqa]
      exact ih hnodup.2 hfind

/-- When ids are unique, two rows of the store with the same id are the
same row. -/
theorem task_id_inj {db : List Task} (hnodup : (db.map Task.id).Nodup)
    {r s : Task} (hr : r ∈ db) (hs : s ∈ db) (h : r.id = s.id) : r = s :=
  List.inj_on_of_nodup_map hnodup hr hs h

/-- Committing a mutated row that keeps id, owner and creation time leaves
the (id, owner, created_at) projection of every row of the store
unchanged. -/
theorem replace_preserves_triple {db : List Task} {task nt : Task}
    (hnodup : (db.map Task.id).Nodup) (hmem : task ∈ db)
    (hid : nt.id = task.id) (huid : nt.user_id = task.user_id)
    (hca : nt.created_at = task.created_at) :
    (db.map (fun r => if r.id = task.id then nt else r)).map
        (fun r => (r.id, r.user_id, r.created_at))
      = db.map (fun r => (r.id, r.user_id, r.created_at)) := by
  rw [List.map_map]
  refine List.map_congr_left ?_
  intro r hr
  by_cases h : r.id = task.id
  · have : r = task := task_id_inj hnodup hr hmem h
    subst this
    simp [hid, huid, hca]
  · simp [h]

/-! ## Claims -/

/-- C1: for a caller `A`, a task id `t` every holder of which is a
different user, and an id `tNon` matching no task at all, `get` returns the
same 404 "Task not found" outcome for both: the single conjunctive
predicate of `get_task_by_id` makes a not-owned task indistinguishable from
a non-existent one. -/
theorem C1_get_not_owned_indistinguishable (db : List Task) (A t tNon : Nat)
    (hOther : ∀ task ∈ db, task.id = t → task.user_id ≠ A)
    (hNon : ∀ task ∈ db, task.id ≠ tNon) :
    get_task db t A = .error (404, "Task not found") ∧
    get_task db tNon A = .error (404, "Task not found") ∧
    get_task db t A = get_task db tNon A := by
  have h1 : get_task_by_id db t A = none := by
    rw [get_task_by_id, List.find?_eq_none]
    intro a ha
    simp only [Bool.and_eq_true, beq_iff_eq, not_and]
    intro hid
    exact hOther a ha hid
  have h2 : get_task_by_id db tNon A = none := by
    rw [get_task_by_id, List.find?_eq_none]
    intro a ha
    simp only [Bool.and_eq_true, beq_iff_eq, not_and]
    intro hid
    exact absurd hid (hNon a ha)
  refine ⟨?_, ?_, ?_⟩ <;> simp [get_task, h1, h2]

/-- Witness for C1: a store holding one task of user 2; caller 3 requests
that task's id and a non-existent id, with identical outcomes. -/
theorem C1_witness :
    get_task [⟨1, "t", none, false, 2, 0, 0⟩] 1 3 =
      .error (404, "Task not found") ∧
    get_task [⟨1, "t", none, false, 2, 0, 0⟩] 5 3 =
      .error (404, "Task not found") ∧
    get_task [⟨1, "t", none, false, 2, 0, 0⟩] 1 3 =
      get_task [⟨1, "t", none, false, 2, 0, 0⟩] 5 3 :=
  C1_get_not_owned_indistinguishable [⟨1, "t", none, false, 2, 0, 0⟩] 3 1 5
    (by decide) (by decide)

/-- C4: a signin with an email no stored user has, and a signin with the
email of a stored user but a password that fails verification, both fail
with `AuthenticationError` carrying the byte-identical message
"Invalid email or password". -/
theorem C4_signin_indistinguishable (db : List User) (e1 p1 e2 p2 : String)
    (h1 : ∀ u ∈ db, u.email ≠ pyLower e1)
    (u : User) (h2 : db.find? (fun v => v.email == pyLower e2) = some u)
    (h3 : verify_password p2 u.password_hash = false) :
    authenticate_user db e1 p1 = .error "Invalid email or password" ∧
    authenticate_user db e2 p2 = .error "Invalid email or password" ∧
    authenticate_user db e1 p1 = authenticate_user db e2 p2 := by
  have hn : db.find? (fun v => v.email == pyLower e1) = none := by
    rw [List.find?_eq_none]
    intro a ha
    simp [h1 a ha]
  refine ⟨?_, ?_, ?_⟩ <;> simp [authenticate_user, hn, h2, h3]

/-- Witness for C4: one stored user "a@x.com"; a signin as "b@x.com" and
a signin as "A@X.com" with the wrong password produce the identical
error. -/
theorem C4_witness :
    authenticate_user
        [⟨1, "a@x.com", hash_password 9 "password123", "Ann", 0, 0⟩]
        "b@x.com" "password123" = .error "Invalid email or password" ∧
    authenticate_user
        [⟨1, "a@x.com", hash_password 9 "password123", "Ann", 0, 0⟩]
        "A@X.com" "wrong" = .error "Invalid email or password" ∧
    authenticate_user
        [⟨1, "a@x.com", hash_password 9 "password123", "Ann", 0, 0⟩]
        "b@x.com" "password123" =
      authenticate_user
        [⟨1, "a@x.com", hash_password 9 "password123", "Ann", 0, 0⟩]
        "A@X.com" "wrong" :=
  C4_signin_indistinguishable
    [⟨1, "a@x.com", hash_password 9 "password123", "Ann", 0, 0⟩]
    "b@x.com" "password123" "A@X.com" "wrong" (by decide)
    ⟨1, "a@x.com", hash_password 9 "password123", "Ann", 0, 0⟩
    (by decide) (by decide)

/-- C2: verifying a token issued by `create_access_token` for subject `u`
under the same settings yields `u` at every time strictly before the
token's expiry (`t0 + ACCESS_TOKEN_EXPIRE_MINUTES * 60`), and an absent
result at every time at or after it. -/
theorem C2_token_roundtrip (s : Settings) (u t0 now : Nat) :
    (now < t0 + s.ACCESS_TOKEN_EXPIRE_MINUTES * 60 →
      verify_subject s now (create_access_token s none t0 u) = some u) ∧
    (t0 + s.ACCESS_TOKEN_EXPIRE_MINUTES * 60 ≤ now →
      verify_subject s now (create_access_token s none t0 u) = none) := by
  constructor
  · intro h
    simp [verify_subject, verify_token, create_access_token, h]
  · intro h
    simp [verify_subject, verify_token, create_access_token, Nat.not_lt.mpr h]

/-- Witness for C2: a token for subject 42 issued at time 0 verifies at
time 10 and is rejected at time 900 (= the 15-minute default expiry). -/
theorem C2_witness :
    verify_subject ⟨"k", 15, 7⟩ 10 (create_access_token ⟨"k", 15, 7⟩ none 0 42)
      = some 42 ∧
    verify_subject ⟨"k", 15, 7⟩ 900 (create_access_token ⟨"k", 15, 7⟩ none 0 42)
      = none :=
  ⟨(C2_token_roundtrip ⟨"k", 15, 7⟩ 42 0 10).1 (by decide),
   (C2_token_roundtrip ⟨"k", 15, 7⟩ 42 0 900).2 (by decide)⟩

/-- C3: the subject extraction over `verify_token` (a total,
`Option`-valued function — no token input raises) returns a subject exactly
when the token is well-formed, its signature matches the configured secret,
it is unexpired, and it carries the subject claim; and it returns an absent
result for each failure mode: malformed structure, signature mismatch,
expiry reached, missing subject claim. -/
theorem C3_verify_failure_modes (s : Settings) (now : Nat) :
    (∀ tok uid, verify_subject s now tok = some uid ↔
      ∃ p sig, tok = .signed p sig ∧ sig = hmacSign s.BETTER_AUTH_SECRET p ∧
        now < p.exp ∧ p.user_id = some uid) ∧
    (∀ raw, verify_subject s now (.malformed raw) = none) ∧
    (∀ p sig, sig ≠ hmacSign s.BETTER_AUTH_SECRET p →
      verify_subject s now (.signed p sig) = none) ∧
    (∀ p sig, p.exp ≤ now → verify_subject s now (.signed p sig) = none) ∧
    (∀ p sig, p.user_id = none → verify_subject s now (.signed p sig) = none)
    := by
  refine ⟨?_, ?_, ?_, ?_, ?_⟩
  · intro tok uid
    cases tok with
    | malformed raw => simp [verify_subject, verify_token]
    | signed p sig =>
      by_cases hc : sig = hmacSign s.BETTER_AUTH_SECRET p ∧ now < p.exp
      · simp only [verify_subject, verify_token, if_pos hc]
        constructor
        · intro h
          exact ⟨p, sig, rfl, hc.1, hc.2, h⟩
        · rintro ⟨p', sig', heq, hs, he, hu⟩
          injection heq with hp hsg
          subst hp
          exact hu
      · simp only [verify_subject, verify_token, if_neg hc]
        constructor
        · intro h
          cases h
        · rintro ⟨p', sig', heq, hs, he, hu⟩
          injection heq with hp hsg
          subst hp
          subst hsg
          exact absurd ⟨hs, he⟩ hc
  · intro raw
    simp [verify_subject, verify_token]
  · intro p sig hs
    simp [verify_subject, verify_token, hs]
  · intro p sig he
    simp [verify_subject, verify_token, Nat.not_lt.mpr he]
  · intro p sig hu
    by_cases hc : sig = hmacSign s.BETTER_AUTH_SECRET p ∧ now < p.exp
    · simp [verify_subject, verify_token, if_pos hc, hu]
    · simp [verify_subject, verify_token, if_neg hc]

/-- Witness for C3: each failure mode at concrete inputs, and an accepted
token for subject 1. -/
theorem C3_witness :
    verify_subject ⟨"k", 15, 7⟩ 0 (.malformed "junk") = none ∧
    verify_subject ⟨"k", 15, 7⟩ 0 (.signed ⟨some 1, 10⟩ 0) = none ∧
    verify_subject ⟨"k", 15, 7⟩ 99
      (.signed ⟨some 1, 10⟩ (hmacSign "k" ⟨some 1, 10⟩)) = none ∧
    verify_subject ⟨"k", 15, 7⟩ 0
      (.signed ⟨none, 10⟩ (hmacSign "k" ⟨none, 10⟩)) = none ∧
    verify_subject ⟨"k", 15, 7⟩ 0
      (.signed ⟨some 1, 10⟩ (hmacSign "k" ⟨some 1, 10⟩)) = some 1 :=
  ⟨(C3_verify_failure_modes ⟨"k", 15, 7⟩ 0).2.1 "junk",
   (C3_verify_failure_modes ⟨"k", 15, 7⟩ 0).2.2.1 ⟨some 1, 10⟩ 0 (by decide),
   (C3_verify_failure_modes ⟨"k", 15, 7⟩ 99).2.2.2.1 ⟨some 1, 10⟩ _ (by decide),
   (C3_verify_failure_modes ⟨"k", 15, 7⟩ 0).2.2.2.2 ⟨none, 10⟩ _ rfl,
   ((C3_verify_failure_modes ⟨"k", 15, 7⟩ 0).1 _ 1).mpr
     ⟨⟨some 1, 10⟩, _, rfl, rfl, by decide, rfl⟩⟩

/-- C9: the refresh operation succeeds exactly when the presented refresh
token verifies to a subject, and then returns a fresh access token bound to
that same subject; any verification failure yields a 401; the operation is
stateless, so the presented refresh token is neither rotated nor
invalidated (its verification result is a pure function of settings, clock
and token, untouched by the call). -/
theorem C9_refresh_roundtrip (s : Settings) (now : Nat) (tok : TokenInput) :
    (∀ uid, verify_subject s now tok = some uid →
      refresh s now tok = .ok (create_access_token s none now uid)) ∧
    (verify_subject s now tok = none →
      ∃ msg, refresh s now tok = .error (401, msg)) ∧
    (∀ atok, refresh s now tok = .ok atok →
      ∃ uid, verify_subject s now tok = some uid ∧
        atok = create_access_token s none now uid) := by
  cases hv : verify_token s now tok with
  | none =>
    refine ⟨?_, ?_, ?_⟩
    · intro uid h
      simp [verify_subject, hv] at h
    · intro _
      exact ⟨"Invalid or expired refresh token", by simp [refresh, hv]⟩
    · intro atok h
      simp [refresh, hv] at h
  | some p =>
    cases hu : p.user_id with
    | none =>
      refine ⟨?_, ?_, ?_⟩
      · intro uid h
        simp [verify_subject, hv, hu] at h
      · intro _
        exact ⟨"Invalid token payload", by simp [refresh, hv, hu]⟩
      · intro atok h
        simp [refresh, hv, hu] at h
    | some uid =>
      refine ⟨?_, ?_, ?_⟩
      · intro uid' h
        simp only [verify_subject, hv, hu] at h
        cases h
        simp [refresh, hv, hu]
      · intro h
        simp [verify_subject, hv, hu] at h
      · intro atok h
        simp only [refresh, hv, hu] at h
        exact ⟨uid, by simp [verify_subject, hv, hu], (Except.ok.inj h).symm⟩

/-- Witness for C9: a valid refresh token for subject 42 yields exactly the
new access token for 42; an expired one yields a 401. -/
theorem C9_witness :
    refresh ⟨"k", 15, 7⟩ 5 (create_refresh_token ⟨"k", 15, 7⟩ 0 42) =
      .ok (create_access_token ⟨"k", 15, 7⟩ none 5 42) ∧
    (∃ msg, refresh ⟨"k", 15, 7⟩ 999999999 (create_refresh_token ⟨"k", 15, 7⟩ 0 42) =
      .error (401, msg)) :=
  ⟨(C9_refresh_roundtrip ⟨"k", 15, 7⟩ 5
      (create_refresh_token ⟨"k", 15, 7⟩ 0 42)).1 42 (by decide),
   (C9_refresh_roundtrip ⟨"k", 15, 7⟩ 999999999
      (create_refresh_token ⟨"k", 15, 7⟩ 0 42)).2.1 (by decide)⟩

/-- C5: signup fails with the 409 Conflict "Email already registered"
exactly when some stored user already holds the lowercased email (the
pre-insert check and the storage-layer unique constraint both map to that
Conflict); on success the created user is stored with the lowercased
email and is returned together with access and refresh tokens bound to
its id. -/
theorem C5_signup_conflict_iff (s : Settings) (db : List User)
    (next_id salt now : Nat) (email password name : String) :
    ((∃ u ∈ db, u.email = pyLower email) →
      signup s db next_id salt now email password name =
        .error (409, "Email already registered")) ∧
    ((∀ u ∈ db, u.email ≠ pyLower email) →
      ∃ db2 res, signup s db next_id salt now email password name =
          .ok (db2, res) ∧
        res.user.email = pyLower email ∧
        res.user ∈ db2 ∧
        res.access_token = create_access_token s none now res.user.id ∧
        res.refresh_token = create_refresh_token s now res.user.id) := by
  constructor
  · rintro ⟨u, hu, he⟩
    have hsome : (db.find? (fun w => w.email == pyLower email)).isSome := by
      rw [List.find?_isSome]
      exact ⟨u, hu, by simp [he]⟩
    rcases Option.isSome_iff_exists.mp hsome with ⟨v, hv⟩
    simp [signup, create_user, hv]
  · intro hall
    have hn : db.find? (fun w => w.email == pyLower email) = none := by
      rw [List.find?_eq_none]
      intro a ha
      simp [hall a ha]
    have hany : (db.any fun v => v.email == pyLower email) = false := by
      cases hA : db.any fun v => v.email == pyLower email
      · rfl
      · rcases List.any_eq_true.mp hA with ⟨v, hv, hveq⟩
        exact absurd (by simpa using hveq) (hall v hv)
    unfold signup create_user
    simp only [hn, hany, Bool.false_eq_true, if_false]
    exact ⟨_, _, rfl, rfl, by simp, rfl, rfl⟩

/-- Witness for C5: with "a@x.com" registered, a signup as "A@X.com"
yields the Conflict; a signup as "b@x.com" succeeds with tokens. -/
theorem C5_witness :
    signup ⟨"k", 15, 7⟩ [⟨1, "a@x.com", hash_password 9 "pw", "Ann", 0, 0⟩]
        2 8 5 "A@X.com" "password123" "Bob" =
      .error (409, "Email already registered") ∧
    (∃ db2 res,
      signup ⟨"k", 15, 7⟩ [⟨1, "a@x.com", hash_password 9 "pw", "Ann", 0, 0⟩]
          2 8 5 "b@x.com" "password123" "Bob" = .ok (db2, res) ∧
        res.user.email = pyLower "b@x.com" ∧
        res.user ∈ db2 ∧
        res.access_token =
          create_access_token ⟨"k", 15, 7⟩ none 5 res.user.id ∧
        res.refresh_token = create_refresh_token ⟨"k", 15, 7⟩ 5 res.user.id) :=
  ⟨(C5_signup_conflict_iff ⟨"k", 15, 7⟩
      [⟨1, "a@x.com", hash_password 9 "pw", "Ann", 0, 0⟩]
      2 8 5 "A@X.com" "password123" "Bob").1 (by decide),
   (C5_signup_conflict_iff ⟨"k", 15, 7⟩
      [⟨1, "a@x.com", hash_password 9 "pw", "Ann", 0, 0⟩]
      2 8 5 "b@x.com" "password123" "Bob").2 (by decide)⟩

/-- C6: the create pipeline (request validation then `create_task`)
rejects a title blank after strip, and on success stores the stripped
title, the stripped description with a blank one stored as absent,
`completed = false`, both timestamps at now, and the caller's identity as
owner. -/
theorem C6_create_task_fields (db : List Task) (next_id : Nat)
    (title : String) (descr : Option String) (uid now : Nat) :
    (pyStrip title = "" →
      ∃ e, create_new_task db next_id title descr uid now = .error e) ∧
    (∀ db2 task,
      create_new_task db next_id title descr uid now = .ok (db2, task) →
      task.title = pyStrip title ∧
      (descr = none → task.description = none) ∧
      (∀ d, descr = some d → pyStrip d = "" → task.description = none) ∧
      (∀ d, descr = some d → pyStrip d ≠ "" →
        task.description = some (pyStrip d)) ∧
      task.completed = false ∧
      task.user_id = uid ∧
      task.created_at = now ∧ task.updated_at = now) := by
  constructor
  · intro hb
    have : ∃ e, validate_title title = .error e := by
      unfold validate_title
      by_cases h1 : title.length < 1
      · exact ⟨_, by rw [if_pos h1]⟩
      · by_cases h2 : 200 < title.length
        · exact ⟨_, by rw [if_neg h1, if_pos h2]⟩
        · exact ⟨_, by rw [if_neg h1, if_neg h2, if_pos hb]⟩
    rcases this with ⟨e, he⟩
    exact ⟨e, by simp [create_new_task, he]⟩
  · intro db2 task h
    unfold create_new_task at h
    cases hvt : validate_title title with
    | error e => rw [hvt] at h; simp at h
    | ok t =>
      rw [hvt] at h
      cases hvd : validate_description descr with
      | error e => rw [hvd] at h; simp at h
      | ok d =>
        rw [hvd] at h
        have ht : t = pyStrip title := by
          unfold validate_title at hvt
          by_cases h1 : title.length < 1
          · rw [if_pos h1] at hvt; simp at hvt
          · rw [if_neg h1] at hvt
            by_cases h2 : 200 < title.length
            · rw [if_pos h2] at hvt; simp at hvt
            · rw [if_neg h2] at hvt
              by_cases h3 : pyStrip title = ""
              · rw [if_pos h3] at hvt; simp at hvt
              · rw [if_neg h3] at hvt
                exact (Except.ok.inj hvt).symm
        have hpair := Except.ok.inj h
        have htask : task = (create_task db next_id t d uid now).2 := by
          rw [hpair]
        have hdesc : task.description = pyOptStrip d := by
          rw [htask]; simp [create_task]
        refine ⟨?_, ?_, ?_, ?_, ?_, ?_, ?_, ?_⟩
        · rw [htask]
          show pyStrip t = pyStrip title
          rw [ht, pyStrip_idem]
        · intro hd0
          subst hd0
          simp only [validate_description] at hvd
          have hdval : d = none := (Except.ok.inj hvd).symm
          rw [hdesc, hdval]
          rfl
        · intro dd hdd hblank
          subst hdd
          simp only [validate_description] at hvd
          by_cases hlen : 2000 < dd.length
          · rw [if_pos hlen] at hvd; simp at hvd
          · rw [if_neg hlen, if_pos hblank] at hvd
            have hdval : d = none := (Except.ok.inj hvd).symm
            rw [hdesc, hdval]
            rfl
        · intro dd hdd hblank
          subst hdd
          simp only [validate_description] at hvd
          by_cases hlen : 2000 < dd.length
          · rw [if_pos hlen] at hvd; simp at hvd
          · rw [if_neg hlen, if_neg hblank] at hvd
            have hdval : d = some (pyStrip dd) := (Except.ok.inj hvd).symm
            rw [hdesc, hdval]
            simp [pyOptStrip, hblank, pyStrip_idem]
        · rw [htask]; simp [create_task]
        · rw [htask]; simp [create_task]
        · rw [htask]; simp [create_task]
        · rw [htask]; simp [create_task]

/-- Witness for C6: a whitespace-only title is rejected; a padded title
with a blank description creates a task with the trimmed title, absent
description, `completed = false`, owner 7 and both timestamps at 3. -/
theorem C6_witness :
    (∃ e, create_new_task ([] : List Task) 1 "   " none 7 3 = .error e) ∧
    (∃ db2 task,
      create_new_task ([] : List Task) 1 " Buy milk " (some "   ") 7 3 =
        .ok (db2, task) ∧
      task.title = pyStrip " Buy milk " ∧
      task.description = none ∧
      task.completed = false ∧
      task.user_id = 7 ∧
      task.created_at = 3 ∧ task.updated_at = 3) := by
  constructor
  · exact (C6_create_task_fields [] 1 "   " none 7 3).1 (by decide)
  · have h : create_new_task ([] : List Task) 1 " Buy milk " (some "   ") 7 3 =
        .ok ([⟨1, "Buy milk", none, false, 7, 3, 3⟩],
          ⟨1, "Buy milk", none, false, 7, 3, 3⟩) := by rfl
    have h2 := (C6_create_task_fields [] 1 " Buy milk " (some "   ") 7 3).2 _ _ h
    exact ⟨_, _, h, h2.1, h2.2.2.1 "   " rfl (by decide), h2.2.2.2.2.1,
      h2.2.2.2.2.2.1, h2.2.2.2.2.2.2.1, h2.2.2.2.2.2.2.2⟩

/-- C7: toggling a task the caller owns twice, while the clock strictly
advances between writes (the store holds unique primary keys), returns
`completed` to its original value, and each toggle strictly increases
`updated_at`. -/
theorem C7_toggle_twice (db : List Task) (t uid n1 n2 : Nat)
    (hnodup : (db.map Task.id).Nodup) (task : Task)
    (h : get_task_by_id db t uid = some task)
    (h1 : task.updated_at < n1) (h12 : n1 < n2) :
    ∃ db1 task1 db2 task2,
      toggle_task_completion db t uid n1 = .ok (db1, task1) ∧
      toggle_task_completion db1 t uid n2 = .ok (db2, task2) ∧
      task1.completed = !task.completed ∧
      task2.completed = task.completed ∧
      task.updated_at < task1.updated_at ∧
      task1.updated_at < task2.updated_at := by
  have e1 : toggle_task_completion db t uid n1 =
      .ok (db.map (fun r => if r.id = task.id then
            { task with completed := !task.completed, updated_at := n1 }
          else r),
        { task with completed := !task.completed, updated_at := n1 }) := by
    unfold toggle_task_completion
    rw [h]
  have hget1 : get_task_by_id
      (db.map (fun r => if r.id = task.id then
        { task with completed := !task.completed, updated_at := n1 }
      else r)) t uid =
      some { task with completed := !task.completed, updated_at := n1 } :=
    get_task_by_id_replace hnodup h rfl rfl
  have e2 : toggle_task_completion
      (db.map (fun r => if r.id = task.id then
        { task with completed := !task.completed, updated_at := n1 }
      else r)) t uid n2 =
      .ok ((db.map (fun r => if r.id = task.id then
            { task with completed := !task.completed, updated_at := n1 }
          else r)).map (fun r => if r.id = task.id then
            { task with completed := !(!task.completed), updated_at := n2 }
          else r),
        { task with completed := !(!task.completed), updated_at := n2 }) := by
    unfold toggle_task_completion
    rw [hget1]
  refine ⟨_, _, _, _, e1, e2, rfl, ?_, h1, h12⟩
  show (!(!task.completed)) = task.completed
  exact Bool.not_not task.completed

/-- Witness for C7: one task of user 5, toggled at times 1 and 2. -/
theorem C7_witness :
    ∃ db1 task1 db2 task2,
      toggle_task_completion [⟨1, "a", none, false, 5, 0, 0⟩] 1 5 1 =
        .ok (db1, task1) ∧
      toggle_task_completion db1 1 5 2 = .ok (db2, task2) ∧
      task1.completed = !(false : Bool) ∧
      task2.completed = (false : Bool) ∧
      (0 : Nat) < task1.updated_at ∧
      task1.updated_at < task2.updated_at :=
  C7_toggle_twice [⟨1, "a", none, false, 5, 0, 0⟩] 1 5 1 2 (by decide)
    ⟨1, "a", none, false, 5, 0, 0⟩ rfl (by decide) (by decide)

/-- C8: `update_task` and `toggle_task_completion` keep the returned
task's id, owner and creation time equal to the stored row's, and leave
the (id, owner, created_at) projection of every row of the store
unchanged — owner is set only at creation. -/
theorem C8_update_toggle_frame (db : List Task) (t uid : Nat)
    (title : String) (descr : Option String) (now : Nat)
    (hnodup : (db.map Task.id).Nodup) :
    (∀ db1 task1, update_task db t uid title descr now = .ok (db1, task1) →
      ∃ task0, get_task_by_id db t uid = some task0 ∧
        task1.id = task0.id ∧ task1.user_id = task0.user_id ∧
        task1.created_at = task0.created_at ∧
        db1.map (fun r => (r.id, r.user_id, r.created_at)) =
          db.map (fun r => (r.id, r.user_id, r.created_at))) ∧
    (∀ db1 task1,
      toggle_task_completion db t uid now = .ok (db1, task1) →
      ∃ task0, get_task_by_id db t uid = some task0 ∧
        task1.id = task0.id ∧ task1.user_id = task0.user_id ∧
        task1.created_at = task0.created_at ∧
        db1.map (fun r => (r.id, r.user_id, r.created_at)) =
          db.map (fun r => (r.id, r.user_id, r.created_at))) := by
  constructor
  · intro db1 task1 h
    unfold update_task at h
    cases hg : get_task_by_id db t uid with
    | none => rw [hg] at h; simp at h
    | some task0 =>
      rw [hg] at h
      have hpair := Except.ok.inj h
      obtain ⟨hdb1, htask1⟩ := Prod.mk.injEq .. ▸ hpair
      refine ⟨task0, rfl, ?_, ?_, ?_, ?_⟩
      · rw [← htask1]
      · rw [← htask1]
      · rw [← htask1]
      · rw [← hdb1]
        exact replace_preserves_triple hnodup
          (get_task_by_id_spec hg).2.2 rfl rfl rfl
  · intro db1 task1 h
    unfold toggle_task_completion at h
    cases hg : get_task_by_id db t uid with
    | none => rw [hg] at h; simp at h
    | some task0 =>
      rw [hg] at h
      have hpair := Except.ok.inj h
      obtain ⟨hdb1, htask1⟩ := Prod.mk.injEq .. ▸ hpair
      refine ⟨task0, rfl, ?_, ?_, ?_, ?_⟩
      · rw [← htask1]
      · rw [← htask1]
      · rw [← htask1]
      · rw [← hdb1]
        exact replace_preserves_triple hnodup
          (get_task_by_id_spec hg).2.2 rfl rfl rfl

/-- Witness for C8: updating the single task of user 5 (title "a" → "b"
at time 9) preserves id, owner and creation time of the row and of the
store projection. -/
theorem C8_witness :
    ∃ task0,
      get_task_by_id [⟨1, "a", none, false, 5, 0, 0⟩] 1 5 = some task0 ∧
      (⟨1, "b", none, false, 5, 0, 9⟩ : Task).id = task0.id ∧
      (⟨1, "b", none, false, 5, 0, 9⟩ : Task).user_id = task0.user_id ∧
      (⟨1, "b", none, false, 5, 0, 9⟩ : Task).created_at = task0.created_at ∧
      ([⟨1, "b", none, false, 5, 0, 9⟩] : List Task).map
          (fun r => (r.id, r.user_id, r.created_at)) =
        [⟨1, "a", none, false, 5, 0, 0⟩].map
          (fun r : Task => (r.id, r.user_id, r.created_at)) :=
  (C8_update_toggle_frame [⟨1, "a", none, false, 5, 0, 0⟩] 1 5 "b" none 9
    (by decide)).1 [⟨1, "b", none, false, 5, 0, 9⟩]
    ⟨1, "b", none, false, 5, 0, 9⟩ rfl

/-- C10: a successful delete makes a subsequent ownership-filtered get
return the absent outcome, removes exactly the found row, and leaves every
other row — whoever owns it — in the store. -/
theorem C10_delete_frame (db : List Task) (t uid : Nat)
    (hnodup : (db.map Task.id).Nodup) (db1 : List Task)
    (h : delete_task db t uid = .ok db1) :
    get_task_by_id db1 t uid = none ∧
    ∃ task, get_task_by_id db t uid = some task ∧ task ∉ db1 ∧
      (∀ r ∈ db, r ≠ task → r ∈ db1) ∧
      (∀ r ∈ db1, r ∈ db ∧ r ≠ task) := by
  unfold delete_task at h
  cases hg : get_task_by_id db t uid with
  | none => rw [hg] at h; simp at h
  | some task =>
    rw [hg] at h
    have hdb1 : db1 = db.filter (fun r => r.id != task.id) :=
      (Except.ok.inj h).symm
    obtain ⟨hti, htu, hmem⟩ := get_task_by_id_spec hg
    subst hdb1
    refine ⟨?_, task, rfl, ?_, ?_, ?_⟩
    · rw [get_task_by_id, List.find?_eq_none]
      intro a ha
      have hane : (a.id != task.id) = true := (List.mem_filter.mp ha).2
      simp only [Bool.and_eq_true, beq_iff_eq, not_and]
      intro haid
      exact absurd (haid.trans hti.symm) (by simpa using hane)
    · intro hmem1
      have : (task.id != task.id) = true := (List.mem_filter.mp hmem1).2
      simp at this
    · intro r hr hrne
      refine List.mem_filter.mpr ⟨hr, ?_⟩
      have : r.id ≠ task.id := fun he => hrne (task_id_inj hnodup hr hmem he)
      simpa using this
    · intro r hr
      obtain ⟨hrdb, hrne⟩ := List.mem_filter.mp hr
      refine ⟨hrdb, fun he => ?_⟩
      subst he
      simp at hrne

/-- Witness for C10: deleting task 1 of user 5 from a two-task store
leaves the other user's task untouched and makes the get absent. -/
theorem C10_witness :
    get_task_by_id
      ((([⟨1, "a", none, false, 5, 0, 0⟩,
          ⟨2, "b", none, false, 6, 0, 0⟩] : List Task).filter
        (fun r => r.id != 1))) 1 5 = none ∧
    ∃ task,
      get_task_by_id [⟨1, "a", none, false, 5, 0, 0⟩,
        ⟨2, "b", none, false, 6, 0, 0⟩] 1 5 = some task ∧
      task ∉ (([⟨1, "a", none, false, 5, 0, 0⟩,
          ⟨2, "b", none, false, 6, 0, 0⟩] : List Task).filter
        (fun r => r.id != 1)) ∧
      (∀ r ∈ ([⟨1, "a", none, false, 5, 0, 0⟩,
          ⟨2, "b", none, false, 6, 0, 0⟩] : List Task), r ≠ task →
        r ∈ (([⟨1, "a", none, false, 5, 0, 0⟩,
            ⟨2, "b", none, false, 6, 0, 0⟩] : List Task).filter
          (fun r => r.id != 1))) ∧
      (∀ r ∈ (([⟨1, "a", none, false, 5, 0, 0⟩,
          ⟨2, "b", none, false, 6, 0, 0⟩] : List Task).filter
          (fun r => r.id != 1)),
        r ∈ ([⟨1, "a", none, false, 5, 0, 0⟩,
          ⟨2, "b", none, false, 6, 0, 0⟩] : List Task) ∧ r ≠ task) :=
  C10_delete_frame
    [⟨1, "a", none, false, 5, 0, 0⟩, ⟨2, "b", none, false, 6, 0, 0⟩] 1 5
    (by decide)
    (([⟨1, "a", none, false, 5, 0, 0⟩,
        ⟨2, "b", none, false, 6, 0, 0⟩] : List Task).filter
      (fun r => r.id != 1))
    rfl

end TodoApp
